import Mathlib

/-!
Shallow embedding of `apps/web/scripts/car_inventory_generator.py` and proofs
about its generation logic.

Modelling conventions:
* Python's `random` module with a fixed seed produces a deterministic stream of
  draws.  We model the PRNG as a stream of natural numbers together with a
  position; each primitive (`random.choice`, `random.randint`, one step of
  `random.sample`) consumes exactly one draw `n` and maps it uniformly onto its
  range by `n % size`.
* `datetime.now().strftime("%Y-%m-%d")` is modelled by a `today : String`
  parameter: it is an input of the run that is not derived from the PRNG seed.
* Python float arithmetic in the price computation is modelled by exact
  arithmetic: `int(x * 0.95)` becomes truncated division `(x * 95).tdiv 100`
  (truncation toward zero, which is what Python's `int()` does), and
  `int(x * (1 - mileage / 100000 * 0.3))` becomes
  `(x * (1000000 - 3 * mileage)).tdiv 1000000`.  This model is exact except
  at inputs where the exact product is an integer: there the IEEE-754 double
  product can land just below that integer and `int()` then returns one less
  than the exact truncation.  No theorem below asserts an exact price value;
  the price facts proved (non-negativity) hold for both the exact truncation
  and the value one below it.
* File output (`save_to_csv`) is modelled as the list of I/O effects the
  function performs, in order.
-/

namespace CarInv

/-- State of the pseudo-random number generator: the stream of draws fixed by
the seed, and the current position in it. -/
structure RandGen where
  stream : Nat → Nat
  pos : Nat

/-- Consume one draw from the PRNG stream. -/
def next (g : RandGen) : Nat × RandGen :=
  (g.stream g.pos, ⟨g.stream, g.pos + 1⟩)

/-- `random.choice(seq)`: pick one element of `seq` uniformly.  The default `d`
is never reachable on the non-empty lists the generator uses. -/
def choice (l : List α) (d : α) (g : RandGen) : α × RandGen :=
  (l.getD ((next g).1 % l.length) d, (next g).2)

/-- `random.randint(a, b)`: uniform integer in the inclusive range `[a, b]`. -/
def randint (a b : Nat) (g : RandGen) : Nat × RandGen :=
  (a + (next g).1 % (b + 1 - a), (next g).2)

/-- `random.sample(pool, k)`: `k` distinct elements of `pool`, drawn without
replacement (each step removes the chosen element from the remaining pool). -/
def sample (pool : List String) : Nat → RandGen → List String × RandGen
  | 0, g => ([], g)
  | k + 1, g =>
    let i := (next g).1 % pool.length
    let x := pool.getD i ""
    let rest := sample (pool.eraseIdx i) k (next g).2
    (x :: rest.1, rest.2)

/-- Boolean test that `pat` occurs at the head of `s` (list-of-characters
version of Python string slicing used by substring search). -/
def headMatch : List Char → List Char → Bool
  | [], _ => true
  | _ :: _, [] => false
  | p :: ps, c :: cs => p == c && headMatch ps cs

/-- Boolean substring test: Python's `pat in s` on strings. -/
def hasSub (pat : List Char) : List Char → Bool
  | [] => headMatch pat []
  | c :: cs => headMatch pat (c :: cs) || hasSub pat cs

/-- Per-model catalog entry of `self.makes_data`. -/
structure ModelSpec where
  years : List Nat
  trims : List String
  hp_range : Nat × Nat
  transmission : List String
  body_type : String
  price_range : Nat × Nat

/-- Placeholder `ModelSpec` used as the unreachable default of `choice`. -/
def emptySpec : ModelSpec :=
  ⟨[], [], (0, 0), [], "", (0, 0)⟩

/-- The static catalog `self.makes_data`, in Python dict insertion order. -/
def makes_data : List (String × List (String × ModelSpec)) :=
  [("BMW",
    [("M3", ⟨[2022, 2023, 2024, 2025], ["Base", "Competition"], (473, 503),
      ["6-Speed Manual", "8-Speed Automatic"], "Sedan", (72000, 85000)⟩),
     ("M4", ⟨[2022, 2023, 2024, 2025], ["Base", "Competition", "CSL"], (473, 543),
      ["6-Speed Manual", "8-Speed Automatic"], "Coupe", (74000, 142000)⟩),
     ("M5", ⟨[2022, 2023, 2024], ["Base", "Competition"], (600, 617),
      ["8-Speed Automatic"], "Sedan", (105000, 115000)⟩),
     ("X5 M", ⟨[2022, 2023, 2024], ["Base", "Competition"], (600, 617),
      ["8-Speed Automatic"], "SUV", (107000, 117000)⟩),
     ("M8", ⟨[2022, 2023, 2024], ["Gran Coupe", "Competition"], (600, 617),
      ["8-Speed Automatic"], "Coupe", (133000, 146000)⟩)]),
   ("Mercedes-AMG",
    [("C63 S", ⟨[2022, 2023, 2024], ["Base", "S"], (469, 503),
      ["9-Speed Automatic"], "Sedan", (75000, 85000)⟩),
     ("E63 S", ⟨[2022, 2023, 2024], ["Base", "S"], (603, 603),
      ["9-Speed Automatic"], "Sedan", (108000, 115000)⟩),
     ("GT", ⟨[2022, 2023, 2024], ["Base", "S", "R", "Black Series"], (523, 720),
      ["7-Speed DCT"], "Coupe", (99000, 325000)⟩),
     ("G63", ⟨[2022, 2023, 2024, 2025], ["Base"], (577, 577),
      ["9-Speed Automatic"], "SUV", (156000, 175000)⟩)]),
   ("Audi",
    [("RS3", ⟨[2022, 2023, 2024], ["Base"], (401, 401),
      ["7-Speed DCT"], "Sedan", (60000, 65000)⟩),
     ("RS5", ⟨[2022, 2023, 2024], ["Sportback"], (444, 444),
      ["8-Speed Automatic"], "Coupe", (76000, 82000)⟩),
     ("RS6 Avant", ⟨[2022, 2023, 2024], ["Base"], (591, 591),
      ["8-Speed Automatic"], "Wagon", (116000, 125000)⟩),
     ("RS7", ⟨[2022, 2023, 2024], ["Base"], (591, 591),
      ["8-Speed Automatic"], "Sedan", (117000, 125000)⟩),
     ("R8", ⟨[2022, 2023, 2024], ["V10", "V10 Performance"], (562, 602),
      ["7-Speed DCT"], "Coupe", (158000, 210000)⟩)]),
   ("Nissan",
    [("GT-R", ⟨[2022, 2023, 2024], ["Premium", "Track Edition", "NISMO"], (565, 600),
      ["6-Speed DCT"], "Coupe", (115000, 215000)⟩)]),
   ("Lamborghini",
    [("Huracan", ⟨[2022, 2023, 2024], ["EVO", "EVO RWD", "Tecnica", "STO"], (602, 640),
      ["7-Speed DCT"], "Coupe", (220000, 330000)⟩),
     ("Urus", ⟨[2022, 2023, 2024], ["Base", "S", "Performante"], (641, 666),
      ["8-Speed Automatic"], "SUV", (230000, 260000)⟩),
     ("Aventador", ⟨[2022], ["LP 780-4 Ultimae"], (769, 769),
      ["7-Speed ISR"], "Coupe", (500000, 550000)⟩),
     ("Revuelto", ⟨[2024, 2025], ["Base"], (1001, 1001),
      ["8-Speed DCT"], "Coupe", (600000, 650000)⟩)]),
   ("Porsche",
    [("911 Carrera", ⟨[2022, 2023, 2024, 2025], ["Base", "S", "GTS", "Turbo", "Turbo S"], (379, 640),
      ["7-Speed Manual", "8-Speed PDK"], "Coupe", (107000, 230000)⟩),
     ("911 GT3", ⟨[2022, 2023, 2024], ["Base", "Touring", "RS"], (502, 518),
      ["6-Speed Manual", "7-Speed PDK"], "Coupe", (162000, 225000)⟩),
     ("Taycan", ⟨[2022, 2023, 2024, 2025], ["Base", "4S", "GTS", "Turbo", "Turbo S"], (402, 938),
      ["2-Speed Automatic"], "Sedan", (90000, 185000)⟩),
     ("Cayenne", ⟨[2022, 2023, 2024, 2025], ["Base", "S", "GTS", "Turbo GT"], (348, 631),
      ["8-Speed Automatic"], "SUV", (72000, 180000)⟩)]),
   ("Ferrari",
    [("F8 Tributo", ⟨[2022, 2023], ["Base", "Spider"], (710, 710),
      ["7-Speed DCT"], "Coupe", (280000, 320000)⟩),
     ("SF90 Stradale", ⟨[2022, 2023, 2024], ["Base", "Spider"], (986, 986),
      ["8-Speed DCT"], "Coupe", (507000, 570000)⟩),
     ("Roma", ⟨[2022, 2023, 2024], ["Base"], (612, 612),
      ["8-Speed DCT"], "Coupe", (243000, 260000)⟩),
     ("296 GTB", ⟨[2023, 2024, 2025], ["Base"], (818, 818),
      ["8-Speed DCT"], "Coupe", (320000, 350000)⟩)]),
   ("McLaren",
    [("720S", ⟨[2022, 2023], ["Base", "Spider"], (710, 710),
      ["7-Speed DCT"], "Coupe", (310000, 345000)⟩),
     ("Artura", ⟨[2023, 2024, 2025], ["Base"], (671, 671),
      ["8-Speed DCT"], "Coupe", (237000, 260000)⟩),
     ("765LT", ⟨[2022, 2023], ["Base", "Spider"], (755, 755),
      ["7-Speed DCT"], "Coupe", (382000, 420000)⟩)])]

/-- `self.exterior_colors`. -/
def exterior_colors : List String :=
  ["Alpine White", "Black Sapphire", "Portimao Blue", "Brooklyn Grey",
   "Tanzanite Blue", "Isle of Man Green", "Frozen Marina Bay Blue",
   "Obsidian Black", "Polar White", "Iridium Silver", "Selenite Grey",
   "Spectral Blue", "Patagonia Red", "Jupiter Red", "Rosso Corsa",
   "Giallo Modena", "Nero Daytona", "Bianco Avus", "Verde Mantis",
   "Arancio Borealis", "Rosso Mars", "Blu Uranus", "Grigio Telesto",
   "Racing Yellow", "Guards Red", "Miami Blue", "Chalk", "Carmine Red",
   "Jet Black Metallic", "Designo Diamond White", "Obsidian Black Metallic",
   "GT Silver Metallic", "Nardo Grey", "Suzuka Grey", "Championship White"]

/-- `self.interior_colors`. -/
def interior_colors : List String :=
  ["Black", "Black/Red", "Cognac", "Saddle Brown", "Merino Beige",
   "Silverstone", "Black/Blue", "Mugello Red", "Extended Black",
   "Tartufo", "Black/Yellow Contrast", "Red/Black", "White/Black"]

/-- `self.options`, the fixed pool of option labels. -/
def options : List String :=
  ["Carbon Fiber Package", "Executive Package", "Sport Exhaust System",
   "M Driver\x27s Package", "Premium Package", "Technology Package",
   "Adaptive M Suspension", "Carbon Ceramic Brakes", "Head-Up Display",
   "Harman Kardon Audio", "Burmester Audio", "Bang & Olufsen Audio",
   "Panoramic Sunroof", "Heated/Ventilated Seats", "Massage Seats",
   "Night Vision", "360° Camera System", "Parking Assist Plus",
   "Alcantara Headliner", "Carbon Fiber Interior Trim", "Full Leather Interior",
   "Sport Chrono Package", "PCCB (Carbon Ceramic Brakes)", "Lift System",
   "Lightweight Sports Package", "Aero Package", "Track Package"]

/-- Alphabet used by `generate_vin`: the characters of the string literal
`"ABCDEFGHJKLMNPRSTUVWXYZ0123456789"`. -/
def vinChars : List Char :=
  "ABCDEFGHJKLMNPRSTUVWXYZ0123456789".data

/-- The 17 character draws of `generate_vin`. -/
def genVinAux : Nat → RandGen → List Char × RandGen
  | 0, g => ([], g)
  | n + 1, g =>
    let c := choice vinChars 'A' g
    let rest := genVinAux n c.2
    (c.1 :: rest.1, rest.2)

/-- `generate_vin`: 17 uniform draws from `vinChars`, joined into a string. -/
def generate_vin (g : RandGen) : String × RandGen :=
  (String.mk (genVinAux 17 g).1, (genVinAux 17 g).2)

/-- `generate_stock_number`: the literal `"ST"` followed by a uniform integer
in `[10000, 99999]`. -/
def generate_stock_number (g : RandGen) : String × RandGen :=
  ("ST" ++ toString (randint 10000 99999 g).1, (randint 10000 99999 g).2)

/-- `generate_mileage`: banded mileage relative to the fixed reference year
2025.  The age computation is over the integers, as in Python. -/
def generate_mileage (year : Nat) (g : RandGen) : Nat × RandGen :=
  let current_year : Int := 2025
  let age : Int := current_year - (year : Int)
  if age = 0 then randint 5 500 g
  else if age = 1 then randint 1000 15000 g
  else if age = 2 then randint 8000 30000 g
  else randint 15000 50000 g

/-- One generated vehicle record, with the fields of the Python dict in
insertion order. -/
structure Car where
  stock_number : String
  vin : String
  condition : String
  year : Nat
  make : String
  model : String
  trim : String
  body_type : String
  exterior_color : String
  interior_color : String
  mileage : Nat
  horsepower : Nat
  transmission : String
  transmission_type : String
  drivetrain : String
  fuel_type : String
  options : List String
  price : Int
  date_added : String
deriving DecidableEq

/-- The condition band derived from mileage in `generate_car`. -/
def conditionOf (mileage : Nat) : String :=
  if mileage < 100 then "New"
  else if mileage < 1000 then "Demo"
  else "Used"

/-- The price computed by `generate_car` from base price, options cost and
mileage, with the float products replaced by exact arithmetic:
`int((base_price + options_cost) * 0.95)` is modelled as the truncation toward
zero of the exact product, `((base_price + options_cost) * 95).tdiv 100`, and
the Used branch `int((base_price + options_cost) * (1 - mileage / 100000 *
0.3))` as `((base_price + options_cost) * (1000000 - 3 * mileage)).tdiv
1000000`.  Where the exact product is an integer, the program's double
rounding can make `int()` return one less than this model; the theorems below
therefore use `priceOf` only for facts that are insensitive to a deviation of
one (non-negativity, and the condition bands that do not read the price). -/
def priceOf (base_price options_cost mileage : Nat) : Int :=
  if mileage < 100 then (base_price : Int) + (options_cost : Int)
  else if mileage < 1000 then
    Int.tdiv (((base_price : Int) + (options_cost : Int)) * 95) 100
  else
    Int.tdiv (((base_price : Int) + (options_cost : Int)) * (1000000 - 3 * (mileage : Int)))
      1000000

/-- A generated record together with the sampled base price and computed
options cost (locals of `generate_car` that the pricing claims refer to). -/
structure CarExt where
  car : Car
  base_price : Nat
  options_cost : Nat

/-- `generate_car`, instrumented to also return the sampled base price and the
computed options cost.  Draws occur in exactly the order of the Python source;
the drivetrain draw happens only when the AWD condition is false, as in the
Python conditional expression. -/
def generate_carExt (today : String) (g0 : RandGen) : CarExt × RandGen :=
  let r0 := choice makes_data ("", []) g0
  let make := r0.1.1
  let r1 := choice r0.1.2 ("", emptySpec) r0.2
  let model := r1.1.1
  let model_data := r1.1.2
  let r2 := choice model_data.years 0 r1.2
  let year := r2.1
  let r3 := choice model_data.trims "" r2.2
  let r4 := randint model_data.hp_range.1 model_data.hp_range.2 r3.2
  let r5 := choice model_data.transmission "" r4.2
  let transmission := r5.1
  let r6 := randint model_data.price_range.1 model_data.price_range.2 r5.2
  let base_price := r6.1
  let trans_type :=
    if hasSub "DCT".data transmission.data then "DCT"
    else if hasSub "Manual".data transmission.data then "Manual"
    else "Automatic"
  let r7 := randint 3 8 r6.2
  let num_options := r7.1
  let r8 := sample options num_options r7.2
  let selected_options := r8.1
  let r9 := randint 1000 5000 r8.2
  let options_cost := selected_options.length * r9.1
  let r10 := generate_mileage year r9.2
  let mileage := r10.1
  let r11 := generate_stock_number r10.2
  let r12 := generate_vin r11.2
  let r13 := choice exterior_colors "" r12.2
  let r14 := choice interior_colors "" r13.2
  let r15 :=
    if ["Audi", "Lamborghini", "Nissan"].contains make
        || hasSub "X5".data model.data || hasSub "Cayenne".data model.data
        || hasSub "Urus".data model.data then
      ("AWD", r14.2)
    else
      choice ["RWD", "AWD"] "" r14.2
  let fuel_type := if hasSub "Taycan".data model.data then "Electric" else "Premium Gasoline"
  (⟨{ stock_number := r11.1
      vin := r12.1
      condition := conditionOf mileage
      year := year
      make := make
      model := model
      trim := r3.1
      body_type := model_data.body_type
      exterior_color := r13.1
      interior_color := r14.1
      mileage := mileage
      horsepower := r4.1
      transmission := transmission
      transmission_type := trans_type
      drivetrain := r15.1
      fuel_type := fuel_type
      options := selected_options
      price := priceOf base_price options_cost mileage
      date_added := today },
    base_price, options_cost⟩, r15.2)

/-- `generate_car`: the record alone, as returned by the Python method. -/
def generate_car (today : String) (g : RandGen) : Car × RandGen :=
  ((generate_carExt today g).1.car, (generate_carExt today g).2)

/-- `generate_inventory`: `count` successive calls to `generate_car`. -/
def generate_inventory (today : String) : Nat → RandGen → List Car × RandGen
  | 0, g => ([], g)
  | n + 1, g =>
    let r := generate_car today g
    let rest := generate_inventory today n r.2
    (r.1 :: rest.1, rest.2)

/-- I/O effects of `save_to_csv`, in order. -/
inductive Effect where
  | fileOpen : String → Effect
  | writeHeader : List String → Effect
  | writeRow : List String → Effect
  | printLine : String → Effect
deriving DecidableEq

/-- The CSV field names: the record's keys in insertion order. -/
def carFieldNames : List String :=
  ["stock_number", "vin", "condition", "year", "make", "model", "trim",
   "body_type", "exterior_color", "interior_color", "mileage", "horsepower",
   "transmission", "transmission_type", "drivetrain", "fuel_type", "options",
   "price", "date_added"]

/-- One CSV row: the record's field values in insertion order, with the
multi-valued `options` field joined by the literal separator `"; "`. -/
def carRow (c : Car) : List String :=
  [c.stock_number, c.vin, c.condition, toString c.year, c.make, c.model, c.trim,
   c.body_type, c.exterior_color, c.interior_color, toString c.mileage,
   toString c.horsepower, c.transmission, c.transmission_type, c.drivetrain,
   c.fuel_type, String.intercalate "; " c.options, toString c.price,
   c.date_added]

/-- `save_to_csv` as its trace of I/O effects: an empty inventory returns
before any file or console output; otherwise the file is opened, the header
and one row per record are written, and the saved-count message is printed. -/
def save_to_csv (inventory : List Car) (filename : String) : List Effect :=
  if inventory.isEmpty then []
  else
    Effect.fileOpen filename :: Effect.writeHeader carFieldNames ::
      (inventory.map fun c => Effect.writeRow (carRow c)) ++
      [Effect.printLine ("✓ Saved " ++ toString inventory.length ++ " cars to " ++ filename)]

/-- A record with its `date_added` field cleared; used to state which fields
are determined by the PRNG seed alone. -/
def eraseDate (c : Car) : Car :=
  { c with date_added := "" }

theorem randint_ge (a b : Nat) (g : RandGen) : a ≤ (randint a b g).1 :=
  Nat.le_add_right a _

theorem randint_le (a b : Nat) (g : RandGen) (h : a ≤ b) : (randint a b g).1 ≤ b := by
  have hpos : 0 < b + 1 - a := by omega
  have := Nat.mod_lt (next g).1 hpos
  simp only [randint]
  omega

theorem generate_mileage_ge (y : Nat) (g : RandGen) : 5 ≤ (generate_mileage y g).1 := by
  simp only [generate_mileage]
  split_ifs <;> exact le_trans (by norm_num) (randint_ge _ _ _)

theorem generate_mileage_le (y : Nat) (g : RandGen) : (generate_mileage y g).1 ≤ 50000 := by
  simp only [generate_mileage]
  split_ifs <;> exact le_trans (randint_le _ _ _ (by norm_num)) (by norm_num)

theorem generate_mileage_2025_ge (g : RandGen) : 5 ≤ (generate_mileage 2025 g).1 :=
  generate_mileage_ge 2025 g

theorem generate_mileage_2025_le (g : RandGen) : (generate_mileage 2025 g).1 ≤ 500 := by
  have h : (generate_mileage 2025 g) = randint 5 500 g := by
    unfold generate_mileage
    norm_num
  rw [h]
  exact randint_le _ _ _ (by norm_num)

theorem conditionOf_new (m : Nat) : conditionOf m = "New" ↔ m < 100 := by
  unfold conditionOf
  split_ifs with h1 h2 <;> simp_all

theorem conditionOf_demo (m : Nat) : conditionOf m = "Demo" ↔ (100 ≤ m ∧ m < 1000) := by
  unfold conditionOf
  split_ifs with h1 h2 <;> simp_all

theorem conditionOf_used (m : Nat) : conditionOf m = "Used" ↔ 1000 ≤ m := by
  unfold conditionOf
  split_ifs with h1 h2 <;> simp_all <;> omega

theorem conditionOf_new_or_demo (m : Nat) (h : m < 1000) :
    conditionOf m = "New" ∨ conditionOf m = "Demo" := by
  unfold conditionOf
  split_ifs <;> simp_all

theorem priceOf_nonneg (bp oc m : Nat) (hm : m ≤ 50000) : 0 ≤ priceOf bp oc m := by
  unfold priceOf
  split_ifs
  · positivity
  · exact Int.tdiv_nonneg (by positivity) (by norm_num)
  · exact Int.tdiv_nonneg (mul_nonneg (by positivity) (by omega)) (by norm_num)

theorem getD_mem {α : Type} (l : List α) (i : Nat) (d : α) (h : i < l.length) :
    l.getD i d ∈ l := by
  rw [List.getD_eq_getElem l d h]
  exact List.getElem_mem h

theorem getD_not_mem_eraseIdx {α : Type} :
    ∀ (l : List α) (i : Nat) (d : α), l.Nodup → i < l.length → l.getD i d ∉ l.eraseIdx i
  | [], i, d, _, h => by simp at h
  | x :: xs, 0, d, hl, _ => by
    simp only [List.getD, List.getElem?_cons_zero, Option.getD_some, List.eraseIdx]
    exact (List.nodup_cons.mp hl).1
  | x :: xs, n + 1, d, hl, h => by
    have hx : x ∉ xs := (List.nodup_cons.mp hl).1
    have hxs : xs.Nodup := (List.nodup_cons.mp hl).2
    have hn : n < xs.length := by simpa using h
    have hg : (x :: xs).getD (n + 1) d = xs.getD n d := by simp [List.getD]
    have he : (x :: xs).eraseIdx (n + 1) = x :: xs.eraseIdx n := rfl
    rw [hg, he]
    intro hin
    rcases List.mem_cons.mp hin with h1 | h1
    · exact hx (h1 ▸ getD_mem xs n d hn)
    · exact getD_not_mem_eraseIdx xs n d hxs hn h1

theorem sample_length (k : Nat) : ∀ (pool : List String) (g : RandGen),
    (sample pool k g).1.length = k := by
  induction k with
  | zero => intro pool g; rfl
  | succ n ih => intro pool g; simp [sample, ih]

theorem sample_subset (k : Nat) : ∀ (pool : List String) (g : RandGen),
    k ≤ pool.length → ∀ x ∈ (sample pool k g).1, x ∈ pool := by
  induction k with
  | zero => intro pool g _ x hx; simp [sample] at hx
  | succ n ih =>
    intro pool g hk x hx
    have hpos : 0 < pool.length := by omega
    have hi : (next g).1 % pool.length < pool.length := Nat.mod_lt _ hpos
    simp only [sample, List.mem_cons] at hx
    rcases hx with hx | hx
    · exact hx ▸ getD_mem pool _ "" hi
    · have hlen : n ≤ (pool.eraseIdx ((next g).1 % pool.length)).length := by
        rw [List.length_eraseIdx]
        simp [hi]
        omega
      exact (List.eraseIdx_sublist pool _).subset (ih _ _ hlen x hx)

theorem sample_nodup (k : Nat) : ∀ (pool : List String) (g : RandGen),
    k ≤ pool.length → pool.Nodup → (sample pool k g).1.Nodup := by
  induction k with
  | zero => intro pool g _ _; simp [sample]
  | succ n ih =>
    intro pool g hk hnd
    have hpos : 0 < pool.length := by omega
    have hi : (next g).1 % pool.length < pool.length := Nat.mod_lt _ hpos
    have hlen : n ≤ (pool.eraseIdx ((next g).1 % pool.length)).length := by
      rw [List.length_eraseIdx]
      simp [hi]
      omega
    have hnd' : (pool.eraseIdx ((next g).1 % pool.length)).Nodup :=
      hnd.sublist (List.eraseIdx_sublist pool _)
    simp only [sample, List.nodup_cons]
    refine ⟨fun hmem => ?_, ih _ _ hlen hnd'⟩
    exact getD_not_mem_eraseIdx pool _ "" hnd hi (sample_subset n _ _ hlen _ hmem)

theorem genVinAux_length (n : Nat) : ∀ g : RandGen, (genVinAux n g).1.length = n := by
  induction n with
  | zero => intro g; rfl
  | succ m ih => intro g; simp [genVinAux, ih]

theorem genVinAux_mem (n : Nat) : ∀ (g : RandGen), ∀ c ∈ (genVinAux n g).1, c ∈ vinChars := by
  induction n with
  | zero => intro g c hc; simp [genVinAux] at hc
  | succ m ih =>
    intro g c hc
    have hpos : 0 < vinChars.length := by decide
    simp only [genVinAux, choice, List.mem_cons] at hc
    rcases hc with hc | hc
    · exact hc ▸ getD_mem vinChars _ 'A' (Nat.mod_lt _ hpos)
    · exact ih _ c hc

/-- C5: every record returned by `generate_car` has a non-negative integer
price, whatever the catalog entry and however the draws fall. -/
theorem generate_car_price_nonneg (today : String) (g : RandGen) :
    0 ≤ (generate_car today g).1.price := by
  simp only [generate_car, generate_carExt]
  exact priceOf_nonneg _ _ _ (generate_mileage_le _ _)

/-- C4: for every record returned by `generate_car`, the condition field is
the function of mileage given by the bands `< 100 ↦ New`,
`[100, 1000) ↦ Demo`, `≥ 1000 ↦ Used`. -/
theorem generate_car_condition_bands (today : String) (g : RandGen) :
    ((generate_car today g).1.condition = "New" ↔ (generate_car today g).1.mileage < 100) ∧
    ((generate_car today g).1.condition = "Demo" ↔
      (100 ≤ (generate_car today g).1.mileage ∧ (generate_car today g).1.mileage < 1000)) ∧
    ((generate_car today g).1.condition = "Used" ↔ 1000 ≤ (generate_car today g).1.mileage) := by
  simp only [generate_car, generate_carExt]
  exact ⟨conditionOf_new _, conditionOf_demo _, conditionOf_used _⟩

theorem conditionOf_mileage_2025_ne_used (g : RandGen) :
    conditionOf (generate_mileage 2025 g).1 ≠ "Used" := by
  intro h
  have h1 := (conditionOf_used _).mp h
  have h2 := generate_mileage_2025_le g
  omega

theorem fuelIte (b : Bool) :
    ((if b then "Electric" else "Premium Gasoline") = "Electric" ↔ b = true) ∧
    ((if b then "Electric" else "Premium Gasoline") = "Premium Gasoline" ↔ b = false) := by
  cases b <;> simp

/-- C8: for every record returned by `generate_car`, the fuel type is
`"Electric"` exactly when the model name contains the substring `"Taycan"`,
and `"Premium Gasoline"` exactly otherwise. -/
theorem generate_car_fuel_type (today : String) (g : RandGen) :
    ((generate_car today g).1.fuel_type = "Electric" ↔
      hasSub "Taycan".data (generate_car today g).1.model.data = true) ∧
    ((generate_car today g).1.fuel_type = "Premium Gasoline" ↔
      hasSub "Taycan".data (generate_car today g).1.model.data = false) := by
  simp only [generate_car, generate_carExt]
  exact fuelIte _

/-- C9: a record generated with `year = 2025` is never in condition `"Used"`:
its age-0 mileage lies in `[5, 500]`, below the 1000-mile Used threshold. -/
theorem generate_car_year2025_not_used (today : String) (g : RandGen)
    (h : (generate_car today g).1.year = 2025) :
    (generate_car today g).1.condition ≠ "Used" := by
  simp only [generate_car, generate_carExt] at h ⊢
  rw [h]
  exact conditionOf_mileage_2025_ne_used _

/-- Stream that selects Porsche 911 Carrera, year 2025, all other draws 0. -/
def gNew2025 : RandGen :=
  ⟨fun i => if i = 0 then 5 else if i = 2 then 3 else 0, 0⟩

theorem generate_car_year2025_not_used_witness :
    (generate_car "2025-10-12" gNew2025).1.year = 2025 ∧
    (generate_car "2025-10-12" gNew2025).1.condition ≠ "Used" := by
  have h : (generate_car "2025-10-12" gNew2025).1.year = 2025 := by decide
  exact ⟨h, generate_car_year2025_not_used "2025-10-12" gNew2025 h⟩

/-- C1 (amended): a record generated with `year = 2025` has mileage in
`[5, 500]` and condition `"New"` or `"Demo"` (it is `"New"` only when the
mileage draw lands below 100). -/
theorem generate_car_year2025_mileage (today : String) (g : RandGen)
    (h : (generate_car today g).1.year = 2025) :
    5 ≤ (generate_car today g).1.mileage ∧ (generate_car today g).1.mileage ≤ 500 ∧
    ((generate_car today g).1.condition = "New" ∨
      (generate_car today g).1.condition = "Demo") := by
  simp only [generate_car, generate_carExt] at h ⊢
  rw [h]
  exact ⟨generate_mileage_2025_ge _, generate_mileage_2025_le _,
    conditionOf_new_or_demo _ (lt_of_le_of_lt (generate_mileage_2025_le _) (by norm_num))⟩

/-- Stream that selects BMW M3, year 2025 (draw 3 at position 2), all other
draws 0; the mileage draw is 0, so mileage is 5. -/
def gBmw2025 : RandGen :=
  ⟨fun i => if i = 2 then 3 else 0, 0⟩

theorem generate_car_year2025_mileage_witness :
    (generate_car "2025-10-12" gBmw2025).1.year = 2025 ∧
    (5 ≤ (generate_car "2025-10-12" gBmw2025).1.mileage ∧
      (generate_car "2025-10-12" gBmw2025).1.mileage ≤ 500 ∧
      ((generate_car "2025-10-12" gBmw2025).1.condition = "New" ∨
        (generate_car "2025-10-12" gBmw2025).1.condition = "Demo")) := by
  have h : (generate_car "2025-10-12" gBmw2025).1.year = 2025 := by decide
  exact ⟨h, generate_car_year2025_mileage "2025-10-12" gBmw2025 h⟩

/-- Stream that selects BMW M3, year 2025, and a mileage draw of 495, giving
mileage 500: the record's condition is `"Demo"`, not `"New"`. -/
def gDemo2025 : RandGen :=
  ⟨fun i => if i = 2 then 3 else if i = 12 then 495 else 0, 0⟩

theorem generate_car_year2025_demo_counterexample :
    (generate_car "2025-10-12" gDemo2025).1.year = 2025 ∧
    (generate_car "2025-10-12" gDemo2025).1.mileage = 500 ∧
    (generate_car "2025-10-12" gDemo2025).1.condition = "Demo" ∧
    (generate_car "2025-10-12" gDemo2025).1.condition ≠ "New" := by decide

/-- C7: every record carries between 3 and 8 pairwise-distinct options from
the fixed pool, and the options cost is the option count times one uniform
draw in `[1000, 5000]`. -/
theorem generate_car_options_spec (today : String) (g : RandGen) :
    3 ≤ (generate_carExt today g).1.car.options.length ∧
    (generate_carExt today g).1.car.options.length ≤ 8 ∧
    (generate_carExt today g).1.car.options.Nodup ∧
    (∀ x ∈ (generate_carExt today g).1.car.options, x ∈ options) ∧
    ∃ mult, 1000 ≤ mult ∧ mult ≤ 5000 ∧
      (generate_carExt today g).1.options_cost =
        (generate_carExt today g).1.car.options.length * mult := by
  simp only [generate_carExt]
  refine ⟨?_, ?_, ?_, ?_, ?_⟩
  · rw [sample_length]
    exact randint_ge _ _ _
  · rw [sample_length]
    exact randint_le _ _ _ (by norm_num)
  · exact sample_nodup _ _ _
      (le_trans (randint_le _ _ _ (by norm_num)) (by decide)) (by decide)
  · exact sample_subset _ _ _
      (le_trans (randint_le _ _ _ (by norm_num)) (by decide))
  · exact ⟨_, randint_ge 1000 5000 _, randint_le 1000 5000 _ (by norm_num), rfl⟩

/-- C6 (amended): every VIN has exactly 17 characters, each drawn from the
fixed 33-character alphabet `A`–`Z` without `I`, `O`, `Q`, plus `0`–`9`. -/
theorem generate_vin_spec (g : RandGen) :
    (generate_vin g).1.length = 17 ∧
    ∀ c ∈ (generate_vin g).1.data, c ∈ vinChars ∧
      ((('A' ≤ c ∧ c ≤ 'Z') ∧ c ≠ 'I' ∧ c ≠ 'O' ∧ c ≠ 'Q') ∨ ('0' ≤ c ∧ c ≤ '9')) := by
  constructor
  · have h : (generate_vin g).1.length = (genVinAux 17 g).1.length := rfl
    rw [h]
    exact genVinAux_length 17 g
  · intro c hc
    have hmem : c ∈ vinChars := genVinAux_mem 17 g c hc
    have hall : ∀ x ∈ vinChars,
        ((('A' ≤ x ∧ x ≤ 'Z') ∧ x ≠ 'I' ∧ x ≠ 'O' ∧ x ≠ 'Q') ∨ ('0' ≤ x ∧ x ≤ '9')) := by
      decide
    exact ⟨hmem, hall c hmem⟩

theorem vinChars_not_34 : vinChars.length = 33 ∧ vinChars.length ≠ 34 := by decide

theorem generate_car_eraseDate (t1 t2 : String) (g : RandGen) :
    eraseDate (generate_car t1 g).1 = eraseDate (generate_car t2 g).1 ∧
    (generate_car t1 g).2 = (generate_car t2 g).2 :=
  ⟨rfl, rfl⟩

/-- C2 (amended): for a fixed PRNG seed the whole batch is a deterministic
function of the seed and the current date; every field except `date_added` is
determined by the seed alone, for batches of any size. -/
theorem generate_inventory_deterministic_modulo_date (t1 t2 : String) (n : Nat) :
    ∀ g : RandGen,
    (generate_inventory t1 n g).1.map eraseDate = (generate_inventory t2 n g).1.map eraseDate ∧
    (generate_inventory t1 n g).2 = (generate_inventory t2 n g).2 := by
  induction n with
  | zero => exact fun g => ⟨rfl, rfl⟩
  | succ m ih =>
    intro g
    have hcar := generate_car_eraseDate t1 t2 g
    simp only [generate_inventory, List.map_cons]
    constructor
    · rw [hcar.1, hcar.2, (ih ((generate_car t2 g).2)).1]
    · rw [hcar.2]
      exact (ih _).2

/-- The all-zero draw stream. -/
def gZero : RandGen :=
  ⟨fun _ => 0, 0⟩

theorem generate_inventory_date_counterexample :
    generate_inventory "2025-01-01" 1 gZero ≠ generate_inventory "2025-01-02" 1 gZero := by
  intro h
  have h1 : (generate_inventory "2025-01-01" 1 gZero).1.map Car.date_added = ["2025-01-01"] := rfl
  have h2 : (generate_inventory "2025-01-02" 1 gZero).1.map Car.date_added = ["2025-01-02"] := rfl
  rw [h, h2] at h1
  exact absurd h1 (by decide)

/-- C10: called with an empty inventory, `save_to_csv` performs no I/O effect
at all: no file is opened or written and nothing is printed. -/
theorem save_to_csv_empty (filename : String) : save_to_csv [] filename = [] := rfl

end CarInv
